import Mathlib

/-!
Shallow embedding of the token/session subsystem of the `nfcschoolbe`
repository (Node/Express + Mongoose), and proofs about it.

Sources embedded:
* `src/models/AccessToken.js` — token store and `verifyAndUse` resolution,
  `isValid`, the token factories;
* `src/models/Student.js` — `recordScan` (scan counter + bounded history);
* `src/models/Artist.js` — `recordScan`;
* `src/models/GeneralProfile.js` (Session schema part) — `endSession`,
  `parseUserAgent`, the pre-save hook, `cleanupInactiveSessions`;
* `src/unnamed/part_001` — the public `GET /api/p/:token` resolution route.

Time is modelled as milliseconds since epoch (`Nat`).  JavaScript `Date`
comparison (`<` on dates) compares the underlying millisecond values.
Nullable JS values are `Option`; JS truthiness of a nullable string
(`null`/`undefined`/`""` are falsy) is `jsTruthy`.
-/

namespace Nfc

/-! ### Strings: case-insensitive substring search (`ua.includes(...)`) -/

/-- `listPrefixOf p l` : `p` is a prefix of `l` (decidable, on char lists). -/
def listPrefixOf : List Char → List Char → Bool
  | [], _ => true
  | _ :: _, [] => false
  | a :: as, b :: bs => a = b && listPrefixOf as bs

/-- `hasSub p l` : `p` occurs as a contiguous substring of `l`. -/
def hasSub (p : List Char) : List Char → Bool
  | [] => p.isEmpty
  | c :: rest => listPrefixOf p (c :: rest) || hasSub p rest

/-- JavaScript `s.includes(pat)` on strings. -/
def strIncludes (s pat : String) : Bool :=
  hasSub pat.data s.data

/-- JavaScript `s.toLowerCase()` (ASCII-adequate model via `Char.toLower`). -/
def jsToLower (s : String) : String :=
  ⟨s.data.map Char.toLower⟩

/-- JS truthiness of a nullable string: `null`/`undefined` and `""` are falsy. -/
def jsTruthy : Option String → Bool
  | none => false
  | some s => s ≠ ""

/-! ### AccessToken (`src/models/AccessToken.js`) -/

/-- The `type` enum of the AccessToken schema:
`'permanent' | 'temporary' | 'one-time'`. -/
inductive TokenType
  | permanent
  | temporary
  | oneTime
  deriving DecidableEq, Repr

/-- An AccessToken document.  Fields as in the Mongoose schema; dates are
milliseconds, nullable fields are `Option`. -/
structure AccessToken where
  token : String
  studentId : Option String := none
  artistId : Option String := none
  entityType : String := "student"
  ttype : TokenType := .permanent
  isUsed : Bool := false
  usedAt : Option Nat := none
  expiresAt : Option Nat := none
  ipAddress : Option String := none
  userAgent : Option String := none
  accessCount : Nat := 0
  lastAccessedAt : Option Nat := none
  createdBy : String := "system"
  notes : Option String := none
  deriving DecidableEq, Repr

/-- The three errors `verifyAndUse` can throw (plus route-level entity miss,
see `Response`). -/
inductive TokenError
  | invalidToken
  | alreadyUsed
  | expired
  deriving DecidableEq, Repr

/-- The `error.message` string of each `verifyAndUse` throw site. -/
def TokenError.message : TokenError → String
  | .invalidToken => "Invalid token"
  | .alreadyUsed => "Token has already been used"
  | .expired => "Token has expired"

/-- The token store: the persistent collection of AccessToken documents. -/
abbrev TokenStore := List AccessToken

/-- `this.findOne({ token })`: first document whose `token` field matches. -/
def findToken (store : TokenStore) (tok : String) : Option AccessToken :=
  store.find? (fun t => t.token = tok)

/-- `doc.save()` on a fetched document: replace the stored document with the
mutated instance (documents are keyed by their unique `token`). -/
def saveToken (store : TokenStore) (t : AccessToken) : TokenStore :=
  store.map (fun u => if u.token = t.token then t else u)

/-- `accessToken.expiresAt < new Date()` — JS date comparison; when
`expiresAt` is `undefined` the comparison is `NaN`-false. -/
def expiresBefore (t : AccessToken) (now : Nat) : Bool :=
  match t.expiresAt with
  | none => false
  | some e => e < now

/-- The validity checks and telemetry/consumption update performed by
`verifyAndUse` on the document it fetched (lines 149–170 of
`AccessToken.js`), as a pure function of the fetched document.  Errors are
thrown before any mutation. -/
def vuProcess (t : AccessToken) (now : Nat) (ip ua : Option String) :
    Except TokenError AccessToken :=
  if t.ttype = .oneTime ∧ t.isUsed then
    .error .alreadyUsed
  else if t.ttype = .temporary ∧ expiresBefore t now then
    .error .expired
  else
    let t := { t with accessCount := t.accessCount + 1, lastAccessedAt := some now }
    let t := if jsTruthy ip then { t with ipAddress := ip } else t
    let t := if jsTruthy ua then { t with userAgent := ua } else t
    let t := if t.ttype = .oneTime then { t with isUsed := true, usedAt := some now } else t
    .ok t

/-- The tail of `verifyAndUse` after its first `await` (the `findOne`):
given the document the read returned, run the checks/updates and `save`
into whatever the store is at write time.  Errors are thrown before the
`save`, so on error the store is returned unchanged. -/
def finishAttempt (st : TokenStore) (readResult : Option AccessToken)
    (now : Nat) (ip ua : Option String) :
    Except TokenError AccessToken × TokenStore :=
  match readResult with
  | none => (.error .invalidToken, st)
  | some t =>
    match vuProcess t now ip ua with
    | .error e => (.error e, st)
    | .ok t' => (.ok t', saveToken st t')

/-- `AccessToken.verifyAndUse(token, ipAddress, userAgent)`
(`AccessToken.js` lines 142–175): `findOne` by token string, throw
`Invalid token` on miss, run the checks and updates, `save`.  Returns the
result together with the store afterwards.  Sequential (uninterleaved) run:
the write applies to the same store the read saw. -/
def verifyAndUse (store : TokenStore) (tok : String) (now : Nat)
    (ip ua : Option String) : Except TokenError AccessToken × TokenStore :=
  finishAttempt store (findToken store tok) now ip ua

/-- Two concurrent `verifyAndUse` calls on the same token string under the
Node event loop, scheduled so that both `findOne` reads complete before
either `save` write (each call suspends at each `await`; this interleaving
is allowed because the read and the write are two separate awaited I/O
operations, not one conditional update).  Attempt A reads, attempt B reads,
A checks and writes, then B checks and writes. -/
def raceBothReadFirst (store : TokenStore) (tok : String)
    (nowA : Nat) (ipA uaA : Option String)
    (nowB : Nat) (ipB uaB : Option String) :
    Except TokenError AccessToken × Except TokenError AccessToken × TokenStore :=
  let readA := findToken store tok
  let readB := findToken store tok
  let (resA, st1) := finishAttempt store readA nowA ipA uaA
  let (resB, st2) := finishAttempt st1 readB nowB ipB uaB
  (resA, resB, st2)

/-- `token.isValid()` (`AccessToken.js` lines 194–206). -/
def isValid (t : AccessToken) (now : Nat) : Bool :=
  if t.ttype = .oneTime ∧ t.isUsed then false
  else if t.ttype = .temporary ∧ expiresBefore t now then false
  else true

/-- `AccessToken.createTemporaryToken(id, entityType, hoursValid)`
(`AccessToken.js` lines 108–126): `expiresAt = now + hoursValid` hours
(`setHours(getHours() + hoursValid)`, i.e. `hoursValid * 3600000` ms). -/
def createTemporaryToken (id : String) (entityType : String)
    (hoursValid : Nat) (now : Nat) (tokenStr : String) : AccessToken :=
  { token := tokenStr
    entityType := entityType
    ttype := .temporary
    expiresAt := some (now + hoursValid * 3600000)
    studentId := if entityType = "student" then some id else none
    artistId := if entityType = "student" then none else some id
    notes := some ("Temporary access (" ++ toString hoursValid ++ "h)")
    createdBy := "system" }

/-- `AccessToken.createOneTimeToken(studentId)` (`AccessToken.js`
lines 129–139). -/
def createOneTimeToken (studentId : String) (tokenStr : String) : AccessToken :=
  { token := tokenStr
    studentId := some studentId
    ttype := .oneTime
    notes := some "One-time access token"
    createdBy := "system" }

/-! ### Student / Artist scan state (`src/models/Student.js`, `Artist.js`) -/

/-- One `scanHistory` entry (the `scanHistorySchema`); `ipAddress` may be
absent (the route can pass `undefined`). -/
structure ScanEntry where
  scannedAt : Nat
  ipAddress : Option String
  userAgent : String
  deriving DecidableEq, Repr

/-- The slice of a Student document that the resolution path touches. -/
structure Student where
  studentId : String
  isActive : Bool := true
  scanCount : Nat := 0
  lastScanned : Option Nat := none
  scanHistory : List ScanEntry := []
  deriving DecidableEq, Repr

/-- `student.recordScan(ipAddress, userAgent)` (`Student.js` lines 238–254):
increment `scanCount`, set `lastScanned`, `shift()` the history once it has
reached 50 entries, then `push` the new entry. -/
def recordScan (s : Student) (now : Nat) (ip : Option String) (ua : String) : Student :=
  let s := { s with scanCount := s.scanCount + 1, lastScanned := some now }
  let hist := if s.scanHistory.length ≥ 50 then s.scanHistory.tail else s.scanHistory
  { s with scanHistory := hist ++ [⟨now, ip, ua⟩] }

/-- The slice of an Artist document that the resolution path touches
(`Artist.js`: `recordScan` has no history buffer). -/
structure Artist where
  artistId : String
  isActive : Bool := true
  scanCount : Nat := 0
  lastScanned : Option Nat := none
  deriving DecidableEq, Repr

/-- `artist.recordScan()` (`Artist.js` lines 266–270). -/
def artistRecordScan (a : Artist) (now : Nat) : Artist :=
  { a with scanCount := a.scanCount + 1, lastScanned := some now }

/-! ### Session (`src/models/GeneralProfile.js`, Session schema) -/

/-- A Session document (the fields the embedded operations touch).
`duration` is an `Int`: JS can store a negative floor. -/
structure Session where
  sessionId : String
  studentId : Option String := none
  artistId : Option String := none
  ipAddress : String := "0.0.0.0"
  userAgent : String := "Unknown"
  deviceType : String := "unknown"
  browser : String := "Unknown"
  os : String := "Unknown"
  startTime : Nat
  endTime : Option Nat := none
  duration : Int := 0
  isActive : Bool := true
  referrer : Option String := none
  pageViews : Nat := 1
  deriving DecidableEq, Repr

/-- `session.parseUserAgent()` (`GeneralProfile.js` lines 289–318) as a pure
function of the raw user-agent string, returning
(`deviceType`, `browser`, `os`). -/
def parseUserAgent (userAgent : String) : String × String × String :=
  let ua := jsToLower userAgent
  let deviceType :=
    if strIncludes ua "mobile" || strIncludes ua "android" then "mobile"
    else if strIncludes ua "tablet" || strIncludes ua "ipad" then "tablet"
    else if strIncludes ua "mozilla" || strIncludes ua "chrome" || strIncludes ua "safari" then
      "desktop"
    else "unknown"
  let browser :=
    if strIncludes ua "chrome" then "Chrome"
    else if strIncludes ua "firefox" then "Firefox"
    else if strIncludes ua "safari" then "Safari"
    else if strIncludes ua "edge" then "Edge"
    else if strIncludes ua "opera" then "Opera"
    else "Unknown"
  let os :=
    if strIncludes ua "windows" then "Windows"
    else if strIncludes ua "mac" then "macOS"
    else if strIncludes ua "linux" then "Linux"
    else if strIncludes ua "android" then "Android"
    else if strIncludes ua "ios" || strIncludes ua "iphone" || strIncludes ua "ipad" then "iOS"
    else "Unknown"
  (deviceType, browser, os)

/-- The `pre('save')` hook (`GeneralProfile.js` lines 321–326): parse the
user agent into the classification fields only when the document is new and
`userAgent` is truthy. -/
def sessionPreSave (s : Session) (isNew : Bool) : Session :=
  if isNew && s.userAgent ≠ "" then
    let p := parseUserAgent s.userAgent
    { s with deviceType := p.1, browser := p.2.1, os := p.2.2 }
  else s

/-- `session.endSession()` (`GeneralProfile.js` lines 174–183): no-op when
already inactive; otherwise set `endTime = now`,
`duration = Math.floor((endTime - startTime) / 1000)`, `isActive = false`. -/
def endSession (s : Session) (now : Nat) : Session :=
  if !s.isActive then s
  else
    { s with
      endTime := some now
      duration := ((now : Int) - (s.startTime : Int)).fdiv 1000
      isActive := false }

/-! ### The stale-session sweep (`cleanupInactiveSessions`, lines 264–286)

The source builds an `updateMany` whose `$set` document assigns the
`duration` path a JavaScript **function value**:

```js
$set: { isActive: false, endTime: new Date(),
        duration: function () { return Math.floor((new Date() - this.startTime) / 1000); } }
```

MongoDB cannot evaluate a per-document function inside `$set`; Mongoose
casts every `$set` value against the schema (`duration : Number`) and a
function value is not castable to a number, so `updateMany` rejects with a
cast error and **no document is modified**.  The embedding models `$set`
values as an explicit BSON-ish value type so this slip is representable. -/

/-- A value appearing in an update document: a boolean, a date, a number, or
a raw JavaScript function object (not castable to any schema type). -/
inductive UpdateValue
  | vBool (b : Bool)
  | vDate (t : Nat)
  | vNum (n : Int)
  | vJsFunction
  deriving DecidableEq, Repr

/-- Mongoose casting of an update value against a `Number` schema path:
functions do not cast. -/
def castToNumber : UpdateValue → Option Int
  | .vNum n => some n
  | _ => none

/-- The `$set` document built by `cleanupInactiveSessions`. -/
structure CleanupSetDoc where
  isActive : UpdateValue
  endTime : UpdateValue
  duration : UpdateValue
  deriving DecidableEq, Repr

/-- The filter of the sweep: `isActive: true, startTime: { $lt: cutoff },
endTime: null`. -/
def staleFilter (cutoff : Nat) (s : Session) : Bool :=
  s.isActive && decide (s.startTime < cutoff) && s.endTime = none

/-- `updateMany` under Mongoose casting: if any `$set` value fails to cast
against its schema path, the whole call rejects and no session changes;
otherwise every matching session receives the set fields. -/
def updateManyCast (sessions : List Session) (isMatch : Session → Bool)
    (d : CleanupSetDoc) : Except String (List Session) :=
  match d.isActive, d.endTime, castToNumber d.duration with
  | .vBool b, .vDate e, some dur =>
    .ok (sessions.map (fun s =>
      if isMatch s then { s with isActive := b, endTime := some e, duration := dur } else s))
  | _, _, _ => .error "CastError"

/-- `Session.cleanupInactiveSessions(inactivityMinutes)` (`GeneralProfile.js`
lines 264–286), faithfully including its `$set` document: `cutoff =
now - inactivityMinutes` minutes, and `duration` assigned a function value. -/
def cleanupInactiveSessions (sessions : List Session) (now : Nat)
    (inactivityMinutes : Nat) : Except String (List Session) :=
  let cutoff := now - inactivityMinutes * 60000
  updateManyCast sessions (staleFilter cutoff)
    { isActive := .vBool false, endTime := .vDate now, duration := .vJsFunction }

/-- What the spec says the sweep does (`Modelled from the spec:` the intended
per-session end operation — set `isActive=false`, `endTime=now`, `duration`
in whole seconds — which the source's `$set` cannot express). -/
def cleanupStaleSpec (sessions : List Session) (now : Nat)
    (inactivityMinutes : Nat) : List Session :=
  let cutoff := now - inactivityMinutes * 60000
  sessions.map (fun s =>
    if staleFilter cutoff s then
      { s with isActive := false, endTime := some now,
               duration := ((now : Int) - (s.startTime : Int)).fdiv 1000 }
    else s)

/-! ### The public resolution route (`src/unnamed/part_001`,
`GET /api/p/:token`) -/

/-- The JSON response the route sends (the fields the claims are about). -/
structure Response where
  status : Nat
  success : Bool
  message : Option String := none
  sessionId : Option String := none
  deriving DecidableEq, Repr

/-- The persistent state the route reads and mutates. -/
structure AppState where
  tokens : TokenStore
  students : List Student
  artists : List Artist
  sessions : List Session
  deriving DecidableEq, Repr

/-- The session document the route constructs and saves (lines 106–127):
schema defaults for the unset fields, then the `pre('save')` hook runs with
`isNew = true`. -/
def mkRouteSession (newSessionId : String) (now : Nat) (ip : Option String)
    (ua referrer : String) (sid aid : Option String) : Session :=
  sessionPreSave
    { sessionId := newSessionId
      studentId := sid
      artistId := aid
      ipAddress := ip.getD "0.0.0.0"
      userAgent := ua
      startTime := now
      referrer := some referrer }
    true

/-- `router.get('/:token')` (`src/unnamed/part_001` lines 12–163).
Inputs: the request's token parameter, clock, `req.ip` after the
`remoteAddress` fallback (possibly still absent), the raw `user-agent`
header, the referer header, and the fresh `nanoid` session id.  Returns
the response and the state afterwards. -/
def handleProfileRequest (st : AppState) (tok : String) (now : Nat)
    (reqIp reqUa reqReferer : Option String) (newSessionId : String) :
    Response × AppState :=
  let ipAddress := reqIp
  let userAgent := reqUa.getD "Unknown"
  match verifyAndUse st.tokens tok now ipAddress (some userAgent) with
  | (.error e, tokens1) =>
    ({ status := 403, success := false, message := some e.message },
     { st with tokens := tokens1 })
  | (.ok tk, tokens1) =>
    let st1 : AppState := { st with tokens := tokens1 }
    let referrer := reqReferer.getD "Direct"
    if tk.entityType = "artist" then
      match st1.artists.find? (fun a => some a.artistId = tk.artistId && a.isActive) with
      | none =>
        ({ status := 404, success := false,
           message := some "Artist profile not found or inactive" }, st1)
      | some a =>
        let a1 := artistRecordScan a now
        let artists1 := st1.artists.map (fun b => if b.artistId = a.artistId then a1 else b)
        let sess := mkRouteSession newSessionId now ipAddress userAgent referrer
          none (some a.artistId)
        ({ status := 200, success := true, sessionId := some sess.sessionId },
         { st1 with artists := artists1, sessions := st1.sessions ++ [sess] })
    else
      match st1.students.find? (fun s => some s.studentId = tk.studentId && s.isActive) with
      | none =>
        ({ status := 404, success := false,
           message := some "Student profile not found or inactive" }, st1)
      | some s =>
        let s1 := recordScan s now ipAddress userAgent
        let students1 := st1.students.map (fun b => if b.studentId = s.studentId then s1 else b)
        let sess := mkRouteSession newSessionId now ipAddress userAgent referrer
          (some s.studentId) none
        ({ status := 200, success := true, sessionId := some sess.sessionId },
         { st1 with students := students1, sessions := st1.sessions ++ [sess] })

/-! ### Concrete fixtures used by the closed evaluation theorems -/

/-- A stored permanent token carrying telemetry from a previous request. -/
def tokenWithOldTelemetry : AccessToken :=
  { token := "tokP", ipAddress := some "1.2.3.4", userAgent := some "OldUA" }

/-- The document `verifyAndUse` stores after resolving
`tokenWithOldTelemetry` at time 500 with ip `9.9.9.9` and a null user
agent. -/
def tokenAfterTruthyIpResolve : AccessToken :=
  { tokenWithOldTelemetry with
    ipAddress := some "9.9.9.9", accessCount := 1, lastAccessedAt := some 500 }

/-- A permanent token that is marked used and past its `expiresAt`. -/
def usedExpiredPermanentToken : AccessToken :=
  { token := "tokQ", isUsed := true, expiresAt := some 0 }

end Nfc

deriving instance DecidableEq for Except

namespace Nfc

/-! ## Helper lemmas -/

lemma vuProcess_oneTime_used (t : AccessToken) (now : Nat) (ip ua : Option String)
    (h1 : t.ttype = .oneTime) (h2 : t.isUsed = true) :
    vuProcess t now ip ua = .error .alreadyUsed := by
  simp [vuProcess, h1, h2]

lemma verifyAndUse_found (store : TokenStore) (tok : String) (t : AccessToken)
    (now : Nat) (ip ua : Option String) (h : findToken store tok = some t) :
    verifyAndUse store tok now ip ua =
      match vuProcess t now ip ua with
      | .error e => (.error e, store)
      | .ok t1 => (.ok t1, saveToken store t1) := by
  unfold verifyAndUse finishAttempt
  rw [h]

lemma vuProcess_ok_fields (t t1 : AccessToken) (now : Nat) (ip ua : Option String)
    (h : vuProcess t now ip ua = .ok t1) :
    t1.accessCount = t.accessCount + 1 ∧ t1.lastAccessedAt = some now ∧
    t1.ipAddress = (if jsTruthy ip then ip else t.ipAddress) ∧
    t1.userAgent = (if jsTruthy ua then ua else t.userAgent) := by
  unfold vuProcess at h
  split at h
  · exact absurd h (by simp)
  split at h
  · exact absurd h (by simp)
  · simp only [Except.ok.injEq] at h
    subst h
    by_cases hip : jsTruthy ip <;> by_cases hua : jsTruthy ua <;>
      by_cases hot : t.ttype = .oneTime <;> simp [hip, hua, hot]

/-! ## Claim theorems -/

/-- Claim C1.  The resolution of a one-time token is NOT atomic: it is a
`findOne` read followed by a separate `save` write.  Under the interleaving
in which two concurrent resolution attempts on the same fresh one-time
token both complete their read before either writes, BOTH attempts succeed
(instead of exactly one succeeding and the other failing with
`TokenAlreadyUsed`), and the stored `accessCount` ends at 1.  This theorem
evaluates the code at that failing schedule. -/
theorem C1_oneTime_race_both_attempts_succeed :
    (raceBothReadFirst [createOneTimeToken "SL1-01" "tokA"] "tokA"
        100 none none 200 none none).1.isOk = true ∧
    (raceBothReadFirst [createOneTimeToken "SL1-01" "tokA"] "tokA"
        100 none none 200 none none).2.1.isOk = true ∧
    (raceBothReadFirst [createOneTimeToken "SL1-01" "tokA"] "tokA"
        100 none none 200 none none).2.2.map (fun t => t.accessCount) = [1] ∧
    (raceBothReadFirst [createOneTimeToken "SL1-01" "tokA"] "tokA"
        100 none none 200 none none).2.2.map (fun t => t.isUsed) = [true] := by
  decide

/-- Claim C2.  Resolving an already-used one-time token through the public
route fails with the `TokenAlreadyUsed` message and leaves the whole
application state (token store, students, artists, sessions) exactly as it
was: no telemetry mutation, no scan-count increment, no new session. -/
theorem C2_used_oneTime_resolution_fails_state_unchanged
    (st : AppState) (tok : String) (t : AccessToken) (now : Nat)
    (reqIp reqUa reqReferer : Option String) (newSessionId : String)
    (hfind : findToken st.tokens tok = some t)
    (htype : t.ttype = .oneTime) (hused : t.isUsed = true) :
    handleProfileRequest st tok now reqIp reqUa reqReferer newSessionId =
      ({ status := 403, success := false,
         message := some "Token has already been used" }, st) := by
  unfold handleProfileRequest
  dsimp only
  rw [verifyAndUse_found st.tokens tok t now reqIp (some (reqUa.getD "Unknown")) hfind,
    vuProcess_oneTime_used t now reqIp (some (reqUa.getD "Unknown")) htype hused]
  rfl

/-- Witness for C2 at a concrete state: a used one-time token, one active
student, no sessions. -/
theorem C2_witness :
    handleProfileRequest
      ⟨[{ createOneTimeToken "SL1-01" "tokA" with isUsed := true, accessCount := 1 }],
       [{ studentId := "SL1-01", scanCount := 1 }], [], []⟩
      "tokA" 500 (some "9.9.9.9") (some "UA2") none "SESSION-x" =
      ({ status := 403, success := false,
         message := some "Token has already been used" },
       ⟨[{ createOneTimeToken "SL1-01" "tokA" with isUsed := true, accessCount := 1 }],
        [{ studentId := "SL1-01", scanCount := 1 }], [], []⟩) :=
  C2_used_oneTime_resolution_fails_state_unchanged
    ⟨[{ createOneTimeToken "SL1-01" "tokA" with isUsed := true, accessCount := 1 }],
     [{ studentId := "SL1-01", scanCount := 1 }], [], []⟩
    "tokA" { createOneTimeToken "SL1-01" "tokA" with isUsed := true, accessCount := 1 }
    500 (some "9.9.9.9") (some "UA2") none "SESSION-x" (by decide) rfl rfl

lemma verifyAndUse_not_found (store : TokenStore) (tok : String) (now : Nat)
    (ip ua : Option String) (h : findToken store tok = none) :
    verifyAndUse store tok now ip ua = (.error .invalidToken, store) := by
  unfold verifyAndUse finishAttempt
  rw [h]

lemma verifyAndUse_error_store (store : TokenStore) (tok : String) (now : Nat)
    (ip ua : Option String) (e : TokenError)
    (h : (verifyAndUse store tok now ip ua).1 = .error e) :
    verifyAndUse store tok now ip ua = (.error e, store) := by
  cases hf : findToken store tok with
  | none =>
    rw [verifyAndUse_not_found store tok now ip ua hf] at h ⊢
    dsimp only at h
    injection h with h
    rw [h]
  | some t =>
    rw [verifyAndUse_found store tok t now ip ua hf] at h ⊢
    cases hp : vuProcess t now ip ua with
    | error e2 =>
      rw [hp] at h
      dsimp only at h
      injection h with h
      rw [h]
    | ok t1 =>
      rw [hp] at h
      dsimp only at h
      simp at h

/-- Claim C3 counterexample.  Two requests that fail for different internal
reasons (unknown token vs. already-used one-time token) both fail, but carry
DIFFERENT response messages — the route sends `error.message`, not one
generic text, so a caller can distinguish the token states. -/
theorem C3_counterexample_messages_distinguish_failures :
    (handleProfileRequest ⟨[], [], [], []⟩ "tokA" 100 none none none "S1").1.success
      = false ∧
    (handleProfileRequest
        ⟨[{ createOneTimeToken "SL1-01" "tokB" with isUsed := true }], [], [], []⟩
        "tokB" 100 none none none "S2").1.success = false ∧
    (handleProfileRequest ⟨[], [], [], []⟩ "tokA" 100 none none none "S1").1.message ≠
      (handleProfileRequest
        ⟨[{ createOneTimeToken "SL1-01" "tokB" with isUsed := true }], [], [], []⟩
        "tokB" 100 none none none "S2").1.message := by
  decide

/-- Claim C3 amended.  Every failing resolution gets HTTP 403 with
`success = false` and `message` equal to the internal error's own message
(state unchanged); and those messages are pairwise distinct across the
three failure kinds, so different internal failures produce distinguishable
responses. -/
theorem C3_amended_failures_carry_internal_message :
    (∀ (st : AppState) (tok : String) (now : Nat)
        (reqIp reqUa reqReferer : Option String) (newSessionId : String)
        (e : TokenError),
      (verifyAndUse st.tokens tok now reqIp (some (reqUa.getD "Unknown"))).1 = .error e →
      handleProfileRequest st tok now reqIp reqUa reqReferer newSessionId =
        ({ status := 403, success := false, message := some e.message }, st)) ∧
    (∀ e1 e2 : TokenError, e1.message = e2.message → e1 = e2) := by
  constructor
  · intro st tok now reqIp reqUa reqReferer newSessionId e h
    unfold handleProfileRequest
    dsimp only
    rw [verifyAndUse_error_store st.tokens tok now reqIp (some (reqUa.getD "Unknown")) e h]
  · intro e1 e2 h
    cases e1 <;> cases e2 <;> simp [TokenError.message] at h ⊢

/-- Witness for C3 amended: an unknown token on the empty store yields the
403 response with the `Invalid token` internal message. -/
theorem C3_witness :
    (verifyAndUse ([] : TokenStore) "nope" 7 none (some "Unknown")).1 =
      .error .invalidToken ∧
    handleProfileRequest ⟨[], [], [], []⟩ "nope" 7 none none none "S9" =
      ({ status := 403, success := false,
         message := some (TokenError.message .invalidToken) }, ⟨[], [], [], []⟩) :=
  ⟨by decide,
   C3_amended_failures_carry_internal_message.1
     ⟨[], [], [], []⟩ "nope" 7 none none none "S9" .invalidToken (by decide)⟩

/-- Claim C4 counterexample.  A temporary token created with
`hoursValid = 0` has `expiresAt` equal to its creation time, but resolving
it AT the creation instant SUCCEEDS (the expiry check is a strict `<`), so
it does not fail at every time greater than or equal to creation. -/
theorem C4_counterexample_resolution_at_creation_instant_succeeds :
    (createTemporaryToken "SL1-01" "student" 0 1000 "tokT").expiresAt = some 1000 ∧
    (verifyAndUse [createTemporaryToken "SL1-01" "student" 0 1000 "tokT"]
        "tokT" 1000 none none).1.isOk = true := by
  decide

/-- Claim C4 amended.  A temporary token created with `hoursValid = 0` has
`expiresAt` equal to its creation time, and resolution at any time STRICTLY
greater than the creation time fails with the expired classification. -/
theorem C4_amended_zero_hours_expired_strictly_after_creation
    (store : TokenStore) (tokStr id et : String) (created now : Nat)
    (ip ua : Option String)
    (hfind : findToken store tokStr = some (createTemporaryToken id et 0 created tokStr))
    (hlt : created < now) :
    (createTemporaryToken id et 0 created tokStr).expiresAt = some created ∧
    (verifyAndUse store tokStr now ip ua).1 = .error .expired := by
  constructor
  · simp [createTemporaryToken]
  · rw [verifyAndUse_found store tokStr _ now ip ua hfind]
    have hp : vuProcess (createTemporaryToken id et 0 created tokStr) now ip ua =
        .error .expired := by
      simp [vuProcess, createTemporaryToken, expiresBefore, hlt]
    rw [hp]

/-- Witness for C4 amended: creation at 1000, resolution at 1001 fails
expired. -/
theorem C4_witness :
    findToken [createTemporaryToken "SL1-01" "student" 0 1000 "tokT"] "tokT" =
      some (createTemporaryToken "SL1-01" "student" 0 1000 "tokT") ∧
    1000 < 1001 ∧
    (verifyAndUse [createTemporaryToken "SL1-01" "student" 0 1000 "tokT"]
        "tokT" 1001 none none).1 = .error .expired :=
  ⟨by decide, by decide,
   (C4_amended_zero_hours_expired_strictly_after_creation
     [createTemporaryToken "SL1-01" "student" 0 1000 "tokT"]
     "tokT" "SL1-01" "student" 1000 1001 none none (by decide) (by decide)).2⟩

/-- Claim C5.  `recordScan` keeps `scanHistory` within the cap of 50: if
the history has at most 50 entries it still has at most 50 afterwards, the
newest entry is always the last one, and when the history is exactly full
the oldest (first) entry is evicted and the new entry appended (FIFO). -/
theorem C5_recordScan_history_bounded_fifo
    (s : Student) (now : Nat) (ip : Option String) (ua : String)
    (hlen : s.scanHistory.length ≤ 50) :
    (recordScan s now ip ua).scanHistory.length ≤ 50 ∧
    (recordScan s now ip ua).scanHistory.getLast? = some ⟨now, ip, ua⟩ ∧
    (s.scanHistory.length = 50 →
      (recordScan s now ip ua).scanHistory = s.scanHistory.tail ++ [⟨now, ip, ua⟩]) := by
  unfold recordScan
  dsimp only
  by_cases h : s.scanHistory.length ≥ 50
  · have h50 : s.scanHistory.length = 50 := le_antisymm hlen h
    simp only [h, if_pos]
    refine ⟨?_, ?_, fun _ => trivial⟩
    · simp [List.length_tail, h50]
    · simp [List.getLast?_append_cons]
  · simp only [h, if_neg, not_false_iff]
    refine ⟨?_, ?_, fun hc => absurd (show s.scanHistory.length ≥ 50 by omega) h⟩
    · simp only [List.length_append, List.length_singleton]
      omega
    · simp [List.getLast?_append_cons]

/-- Witness for C5 at a concrete student whose history is exactly full
(50 entries): the bound holds, the new entry is last, and the oldest entry
is evicted. -/
theorem C5_witness :
    (⟨"SL1-01", true, 50, none, List.replicate 50 ⟨0, none, "u"⟩⟩ :
        Student).scanHistory.length ≤ 50 ∧
    ((recordScan ⟨"SL1-01", true, 50, none, List.replicate 50 ⟨0, none, "u"⟩⟩
        7 none "ua").scanHistory.length ≤ 50 ∧
     (recordScan ⟨"SL1-01", true, 50, none, List.replicate 50 ⟨0, none, "u"⟩⟩
        7 none "ua").scanHistory.getLast? = some ⟨7, none, "ua"⟩ ∧
     ((⟨"SL1-01", true, 50, none, List.replicate 50 ⟨0, none, "u"⟩⟩ :
          Student).scanHistory.length = 50 →
       (recordScan ⟨"SL1-01", true, 50, none, List.replicate 50 ⟨0, none, "u"⟩⟩
          7 none "ua").scanHistory =
         (List.replicate 50 (⟨0, none, "u"⟩ : ScanEntry)).tail ++ [⟨7, none, "ua"⟩])) :=
  ⟨by decide,
   C5_recordScan_history_bounded_fifo
     ⟨"SL1-01", true, 50, none, List.replicate 50 ⟨0, none, "u"⟩⟩ 7 none "ua"
     (by decide)⟩

/-- Claim C6.  The stale-session sweep is broken in the source: its
`updateMany` assigns the numeric `duration` path a raw JavaScript function
value, which does not cast, so the whole sweep rejects with a cast error
and NO stale session is ended — whereas the specified sweep
(`cleanupStaleSpec`) ends the stale session with `endTime` set and
`duration` in whole seconds. -/
theorem C6_cleanup_sweep_always_rejects :
    (∀ (sessions : List Session) (now m : Nat),
        cleanupInactiveSessions sessions now m = .error "CastError") ∧
    cleanupInactiveSessions [{ sessionId := "S1", startTime := 0 }] 3600000 30 =
      .error "CastError" ∧
    cleanupStaleSpec [{ sessionId := "S1", startTime := 0 }] 3600000 30 =
      [{ sessionId := "S1", startTime := 0, isActive := false,
         endTime := some 3600000, duration := 3600 }] :=
  ⟨fun _ _ _ => rfl, by decide, by decide⟩

/-- Claim C7.  `endSession` is idempotent: a second call is a no-op and
leaves `endTime`, `duration` and `isActive` exactly as the first call left
them. -/
theorem C7_endSession_idempotent (s : Session) (t1 t2 : Nat) :
    endSession (endSession s t1) t2 = endSession s t1 := by
  by_cases h : s.isActive
  · simp [endSession, h]
  · simp [endSession, h]

/-- Claim C8.  User-agent classification: the example string
`Mozilla/5.0 Chrome/100 Safari/537` classifies as device `desktop`,
browser `Chrome`, os `Unknown`; classification is performed only at
creation (the pre-save hook does nothing when the document is not new);
and browser detection is first-match-wins — any user agent containing
`chrome` (case-insensitively) is classified as `Chrome`. -/
theorem C8_parseUserAgent_example_and_once :
    parseUserAgent "Mozilla/5.0 Chrome/100 Safari/537" =
      ("desktop", "Chrome", "Unknown") ∧
    (∀ s : Session, sessionPreSave s false = s) ∧
    (∀ ua : String, strIncludes (jsToLower ua) "chrome" = true →
      (parseUserAgent ua).2.1 = "Chrome") := by
  refine ⟨by decide, fun s => rfl, fun ua h => ?_⟩
  simp [parseUserAgent, h]

/-- Witness for C8: a concrete user agent containing both `chrome` and
`safari` classifies as Chrome. -/
theorem C8_witness :
    strIncludes (jsToLower "Chrome/99 Safari/600") "chrome" = true ∧
    (parseUserAgent "Chrome/99 Safari/600").2.1 = "Chrome" :=
  ⟨by decide, C8_parseUserAgent_example_and_once.2.2 "Chrome/99 Safari/600" (by decide)⟩

/-- Claim C9 counterexample.  A successful resolution called with a null
(falsy) ip address and user agent does NOT overwrite the stored telemetry:
the stored `ipAddress`/`userAgent` remain the PREVIOUS request's values,
not the current request's (null) ones — the overwrite is guarded by JS
truthiness. -/
theorem C9_counterexample_null_ip_keeps_old_telemetry :
    (verifyAndUse [tokenWithOldTelemetry] "tokP" 500 none none).1.isOk = true ∧
    (verifyAndUse [tokenWithOldTelemetry] "tokP" 500 none none).2.map
        (fun t => t.ipAddress) = [some "1.2.3.4"] ∧
    (verifyAndUse [tokenWithOldTelemetry] "tokP" 500 none none).2.map
        (fun t => t.userAgent) = [some "OldUA"] := by
  decide

/-- Claim C9 amended.  On every successful resolution `accessCount` is
incremented and `lastAccessedAt` set to the current time, and
`ipAddress`/`userAgent` are overwritten with the request's values exactly
when those values are truthy (non-null, non-empty); a falsy request value
leaves the previously stored value in place. -/
theorem C9_amended_telemetry_overwrite_guarded_by_truthiness
    (store : TokenStore) (tok : String) (t t1 : AccessToken) (now : Nat)
    (ip ua : Option String)
    (hfind : findToken store tok = some t)
    (hok : (verifyAndUse store tok now ip ua).1 = .ok t1) :
    t1.accessCount = t.accessCount + 1 ∧ t1.lastAccessedAt = some now ∧
    t1.ipAddress = (if jsTruthy ip then ip else t.ipAddress) ∧
    t1.userAgent = (if jsTruthy ua then ua else t.userAgent) := by
  rw [verifyAndUse_found store tok t now ip ua hfind] at hok
  cases hp : vuProcess t now ip ua with
  | error e =>
    rw [hp] at hok
    simp at hok
  | ok t2 =>
    rw [hp] at hok
    dsimp only at hok
    injection hok with hok
    exact hok ▸ vuProcess_ok_fields t t2 now ip ua hp

/-- Witness for C9 amended: a permanent token with stored telemetry,
resolved with a truthy ip and a null user agent: the ip is overwritten,
the user agent is kept. -/
theorem C9_witness :
    findToken [tokenWithOldTelemetry] "tokP" = some tokenWithOldTelemetry ∧
    (verifyAndUse [tokenWithOldTelemetry] "tokP" 500 (some "9.9.9.9") none).1 =
      .ok tokenAfterTruthyIpResolve ∧
    (tokenAfterTruthyIpResolve.accessCount = tokenWithOldTelemetry.accessCount + 1 ∧
     tokenAfterTruthyIpResolve.lastAccessedAt = some 500 ∧
     tokenAfterTruthyIpResolve.ipAddress =
       (if jsTruthy (some "9.9.9.9") then some "9.9.9.9"
        else tokenWithOldTelemetry.ipAddress) ∧
     tokenAfterTruthyIpResolve.userAgent =
       (if jsTruthy (none : Option String) then none
        else tokenWithOldTelemetry.userAgent)) :=
  ⟨by decide, by decide,
   C9_amended_telemetry_overwrite_guarded_by_truthiness
     [tokenWithOldTelemetry] "tokP" tokenWithOldTelemetry tokenAfterTruthyIpResolve
     500 (some "9.9.9.9") none (by decide) (by decide)⟩

/-- Claim C10.  Validity checks are gated on the token's kind: a permanent
token resolves successfully and `isValid` is true regardless of `isUsed`
and `expiresAt` (the `isUsed` check applies only to one-time tokens and
the expiry check only to temporary tokens). -/
theorem C10_permanent_ignores_isUsed_and_expiry
    (store : TokenStore) (tok : String) (t : AccessToken) (now : Nat)
    (ip ua : Option String)
    (hfind : findToken store tok = some t)
    (hperm : t.ttype = .permanent) :
    (verifyAndUse store tok now ip ua).1.isOk = true ∧ isValid t now = true := by
  constructor
  · rw [verifyAndUse_found store tok t now ip ua hfind]
    have hp : ∃ t1, vuProcess t now ip ua = .ok t1 := by
      simp [vuProcess, hperm]
    obtain ⟨t1, hp⟩ := hp
    rw [hp]
    rfl
  · simp [isValid, hperm]

/-- Witness for C10: a permanent token that is both marked used and past
its `expiresAt` still resolves and is valid. -/
theorem C10_witness :
    findToken [usedExpiredPermanentToken] "tokQ" = some usedExpiredPermanentToken ∧
    usedExpiredPermanentToken.ttype = .permanent ∧
    ((verifyAndUse [usedExpiredPermanentToken] "tokQ" 999999 none none).1.isOk = true ∧
     isValid usedExpiredPermanentToken 999999 = true) :=
  ⟨by decide, rfl,
   C10_permanent_ignores_isUsed_and_expiry
     [usedExpiredPermanentToken] "tokQ" usedExpiredPermanentToken
     999999 none none (by decide) rfl⟩

end Nfc
